import Mathlib

/-!
# WeatherGuardTN front end: hover selection, marker classification, detail panel

A shallow embedding of `frontend/src/App.jsx`, `frontend/src/components/MapDisplay.jsx`
and `frontend/src/data/mockData.js`.

* A JavaScript number literal is kept exact as a decimal `mant / 10 ^ scale`.
* A city object literal is a record whose optional fields are `none` when the
  literal does not have that key (reading it in JavaScript gives `undefined`).
* A React state cell `useState(null)` is an `Option CityRecord`; its setter
  replaces the value.
* A JSX element `<Tag ... />` evaluates the identifier `Tag` in the scope of its
  module before the props; an unbound identifier throws a `ReferenceError`.
-/

namespace WeatherGuard

/-! ## JavaScript values -/

/-- Decimal number literal: the value is `mant / 10 ^ scale`. -/
structure JsNum where
  mant : Int
  scale : Nat
deriving DecidableEq, Repr

instance (n : Nat) : OfNat JsNum n := ⟨⟨Int.ofNat n, 0⟩⟩

instance : OfScientific JsNum :=
  ⟨fun m s e => if s then ⟨Int.ofNat m, e⟩ else ⟨Int.ofNat (m * 10 ^ e), 0⟩⟩

/-- The number has no fractional part. -/
def JsNum.isInteger (n : JsNum) : Bool :=
  decide (n.mant % (10 : Int) ^ n.scale = 0)

/-- Numeric order of two decimals: `a > b`. -/
def JsNum.gt (a b : JsNum) : Bool :=
  decide (b.mant * (10 : Int) ^ a.scale < a.mant * (10 : Int) ^ b.scale)

/-- The quotient `a / 5`, which is again a decimal: `a / 5 = 2 * a / 10`. -/
def JsNum.divFive (a : JsNum) : JsNum :=
  ⟨a.mant * 2, a.scale + 1⟩

/-- The fractional digits of `r / 10 ^ scale` (with `r < 10 ^ scale`), without
trailing zeros. -/
def fracDigits (r scale : Nat) : String :=
  let ds := Nat.toDigits 10 r
  let padded := List.replicate (scale - ds.length) '0' ++ ds
  String.mk (padded.reverse.dropWhile (fun ch => ch == '0')).reverse

/-- Number to string conversion used by template literals, in plain decimal
form (the form JavaScript prints for magnitudes from `1e-6` up to `1e21`). -/
def JsNum.toJsString (n : JsNum) : String :=
  let p := 10 ^ n.scale
  let a := n.mant.natAbs
  let sign := if n.mant < 0 then "-" else ""
  if a % p = 0 then sign ++ toString (a / p)
  else sign ++ toString (a / p) ++ "." ++ fracDigits (a % p) n.scale

/-- The relational operator `v > k` where `v` is a numeric property read that
may be `undefined` (`none`): `undefined` converts to `NaN`, and every
comparison with `NaN` is false. -/
def jsGt (v : Option JsNum) (k : JsNum) : Bool :=
  match v with
  | some n => n.gt k
  | none => false

/-- The template-literal substitution of a numeric property read that may be
`undefined`. -/
def jsTemplate (v : Option JsNum) : String :=
  match v with
  | some n => n.toJsString
  | none => "undefined"

/-- The arithmetic `v / 5` of a numeric property read that may be `undefined`
(`none` as a result is `NaN`). -/
def jsDivFive (v : Option JsNum) : Option JsNum :=
  v.map JsNum.divFive

/-! ## Data model -/

/-- A city object literal. `App.jsx` writes the keys `id, name, lat, lng, danger`;
`mockData.js` writes `id, name, lat, lng, dangerScore, risk, temp`. A key the
literal does not write is `none`. -/
structure CityRecord where
  id : JsNum
  name : String
  lat : JsNum
  lng : JsNum
  danger : Option JsNum := none
  dangerScore : Option JsNum := none
  risk : Option String := none
  temp : Option JsNum := none
deriving DecidableEq, Repr

/-- The hover selection: `null` or the record under the pointer. -/
abbrev HoverSelection := Option CityRecord

/-! ## Module scope and JSX elements -/

/-- Errors thrown while a component renders. -/
inductive JsError where
  | referenceError (name : String)
deriving DecidableEq, Repr

/-- Evaluation of an identifier in a module scope. -/
def resolve (scope : List String) (name : String) : Except JsError Unit :=
  if name ∈ scope then Except.ok () else Except.error (JsError.referenceError name)

/-- Leaflet path options of a circle marker. -/
structure PathOptions where
  fillColor : String
  color : String
  weight : JsNum
  fillOpacity : JsNum
deriving DecidableEq, Repr

/-- The argument of a `setStyle` call on the event target. -/
structure StylePatch where
  fillOpacity : JsNum
  weight : JsNum
deriving DecidableEq, Repr

/-- What one event handler of a marker does when it is called: an optional
`e.target.setStyle(patch)` followed by one call of the state setter with the
value `setState` (`none` is `null`). -/
structure Handler where
  setStyle : Option StylePatch
  setState : HoverSelection
deriving DecidableEq, Repr

/-- The `eventHandlers` prop of a marker. -/
structure EventHandlers where
  mouseover : Handler
  mouseout : Handler
deriving DecidableEq, Repr

/-- The props of one `<CircleMarker>` element (`radius` is `none` for `NaN`,
`tooltip` is the text of the `<Tooltip>` child when there is one). -/
structure CircleMarker where
  key : JsNum
  center : JsNum × JsNum
  radius : Option JsNum
  pathOptions : PathOptions
  eventHandlers : EventHandlers
  tooltip : Option String
deriving DecidableEq, Repr

/-- The two pointer events a marker listens to. -/
inductive PointerEvent where
  | mouseover
  | mouseout
deriving DecidableEq, Repr

/-- The setter returned by `useState`: the new value replaces the old one. -/
def setState (value : HoverSelection) (_old : HoverSelection) : HoverSelection :=
  value

/-- Leaflet calls the handler registered for the event on the marker; the
handler calls the state setter with its value. -/
def fire (m : CircleMarker) (ev : PointerEvent) (s : HoverSelection) : HoverSelection :=
  match ev with
  | PointerEvent.mouseover => setState m.eventHandlers.mouseover.setState s
  | PointerEvent.mouseout => setState m.eventHandlers.mouseout.setState s

/-! ## `data/mockData.js` -/

/-- The literal `tunisiaRegions` of `mockData.js`. -/
def tunisiaRegions : List CityRecord := [
  { id := 1, name := "Tunis", lat := 36.8065, lng := 10.1815, dangerScore := some 88,
    risk := some "High Flood Risk", temp := some 25 },
  { id := 2, name := "Sousse", lat := 35.8256, lng := 10.6369, dangerScore := some 45,
    risk := some "Moderate Wind", temp := some 28 },
  { id := 3, name := "Tozeur", lat := 33.9197, lng := 8.1335, dangerScore := some 92,
    risk := some "Extreme Heatwave", temp := some 42 },
  { id := 4, name := "Bizerte", lat := 37.2744, lng := 9.8739, dangerScore := some 15,
    risk := some "Low Risk", temp := some 22 } ]

/-! ## `App.jsx` -/

namespace App

/-- The identifiers bound in `App.jsx`: its imports and top-level declarations. -/
def moduleScope : List String :=
  ["React", "useState", "MapContainer", "TileLayer", "CircleMarker", "Tooltip",
   "Shield", "Activity", "Thermometer", "cities", "App"]

/-- The literal `cities` of `App.jsx`. -/
def cities : List CityRecord := [
  { id := 1, name := "Tunis", lat := 36.8, lng := 10.1, danger := some 85 },
  { id := 2, name := "Sousse", lat := 35.8, lng := 10.6, danger := some 35 },
  { id := 3, name := "Kairouan", lat := 35.6, lng := 10.1, danger := some 65 },
  { id := 4, name := "Tataouine", lat := 32.9, lng := 10.4, danger := some 95 } ]

/-- The initial value of `active`: `useState(null)`. -/
def active : HoverSelection := none

/-- One row of the side list "ALERTES ACTIVES". -/
structure AlertRow where
  key : JsNum
  name : String
  color : String
  percent : Option JsNum
deriving DecidableEq, Repr

/-- The rows of the side list: `cities.map(c => ...)`. -/
def alertRow (c : CityRecord) : AlertRow :=
  { key := c.id
    name := c.name
    color := if jsGt c.danger 70 then "#ef4444" else "#3b82f6"
    percent := c.danger }

/-- The props of the marker rendered from `city`. -/
def marker (city : CityRecord) : CircleMarker :=
  { key := city.id
    center := (city.lat, city.lng)
    radius := some 15
    pathOptions :=
      { fillColor := if jsGt city.danger 70 then "#ef4444" else "#3b82f6"
        color := "white"
        weight := 2
        fillOpacity := 0.8 }
    eventHandlers :=
      { mouseover := { setStyle := none, setState := some city }
        mouseout := { setStyle := none, setState := none } }
    tooltip := some city.name }

/-- The markers of the map: `cities.map(city => <CircleMarker ... />)`. -/
def markers : Except JsError (List CircleMarker) :=
  cities.mapM fun city => do
    resolve moduleScope "CircleMarker"
    pure (marker city)

/-- The detail card shown over the map. -/
structure DetailCard where
  title : String
  percent : Option JsNum
  percentColor : String
  trackWidth : String
  barWidth : String
  barColor : String
deriving DecidableEq, Repr

/-- The detail card: `active && (...)`. -/
def detailCard (active : HoverSelection) : Option DetailCard :=
  match active with
  | none => none
  | some a =>
    some
      { title := a.name
        percent := a.danger
        percentColor := if jsGt a.danger 70 then "#ef4444" else "#3b82f6"
        trackWidth := "100%"
        barWidth := jsTemplate a.danger ++ "%"
        barColor := if jsGt a.danger 70 then "#ef4444" else "#3b82f6" }

/-- The pointer enters the marker rendered from `city` while the selection is `s`. -/
def onEnter (city : CityRecord) (s : HoverSelection) : HoverSelection :=
  fire (marker city) PointerEvent.mouseover s

/-- The pointer leaves the marker rendered from `city` while the selection is `s`. -/
def onLeave (city : CityRecord) (s : HoverSelection) : HoverSelection :=
  fire (marker city) PointerEvent.mouseout s

/-- The selection after a sequence of pointer events, each on the marker
rendered from the given record, starting from the initial state. -/
def run (evs : List (PointerEvent × CityRecord)) : HoverSelection :=
  evs.foldl (fun s e => fire (marker e.2) e.1 s) active

end App

/-! ## `components/MapDisplay.jsx` -/

namespace MapDisplay

/-- The identifiers bound in `MapDisplay.jsx`: its imports and top-level
declarations. -/
def moduleScope : List String :=
  ["MapContainer", "TileLayer", "Marker", "useMapEvents", "L", "tunisiaRegions",
   "motion", "AnimatePresence", "useState", "icon", "iconShadow", "DefaultIcon",
   "MapDisplay"]

/-- The initial value of `hoveredCity`: `useState(null)`. -/
def hoveredCity : HoverSelection := none

/-- The props of the marker rendered from `city`. -/
def marker (city : CityRecord) : CircleMarker :=
  { key := city.id
    center := (city.lat, city.lng)
    radius := jsDivFive city.dangerScore
    pathOptions :=
      { fillColor := if jsGt city.dangerScore 70 then "#ef4444" else "#3b82f6"
        color := if jsGt city.dangerScore 70 then "#f87171" else "#60a5fa"
        weight := 2
        fillOpacity := 0.6 }
    eventHandlers :=
      { mouseover :=
          { setStyle := some { fillOpacity := 0.9, weight := 4 }, setState := some city }
        mouseout :=
          { setStyle := some { fillOpacity := 0.6, weight := 2 }, setState := none } }
    tooltip := none }

/-- The markers of the map: `tunisiaRegions.map((city) => <CircleMarker ... />)`. -/
def markers : Except JsError (List CircleMarker) :=
  tunisiaRegions.mapM fun city => do
    resolve moduleScope "CircleMarker"
    pure (marker city)

/-- The hover card ("Danger Summary"). -/
structure HoverCard where
  name : String
  badgeClass : String
  status : String
  dangerLevel : Option JsNum
  trackClass : String
  barWidth : String
  barClass : String
  risk : Option String
  temp : Option JsNum
deriving DecidableEq, Repr

/-- The hover card: `hoveredCity && (...)`. -/
def hoverCard (hoveredCity : HoverSelection) : Option HoverCard :=
  match hoveredCity with
  | none => none
  | some h =>
    some
      { name := h.name
        badgeClass := "px-2 py-1 rounded text-xs font-bold " ++
          (if jsGt h.dangerScore 70 then "bg-red-500/20 text-red-400"
           else "bg-emerald-500/20 text-emerald-400")
        status := if jsGt h.dangerScore 70 then "CRITICAL" else "STABLE"
        dangerLevel := h.dangerScore
        trackClass := "w-full bg-slate-700 h-1.5 rounded-full overflow-hidden"
        barWidth := jsTemplate h.dangerScore ++ "%"
        barClass := "h-full " ++ (if jsGt h.dangerScore 70 then "bg-red-500" else "bg-blue-500")
        risk := h.risk
        temp := h.temp }

/-- The pointer enters the marker rendered from `city` while the selection is `s`. -/
def onEnter (city : CityRecord) (s : HoverSelection) : HoverSelection :=
  fire (marker city) PointerEvent.mouseover s

/-- The pointer leaves the marker rendered from `city` while the selection is `s`. -/
def onLeave (city : CityRecord) (s : HoverSelection) : HoverSelection :=
  fire (marker city) PointerEvent.mouseout s

/-- The selection after a sequence of pointer events, each on the marker
rendered from the given record, starting from the initial state. -/
def run (evs : List (PointerEvent × CityRecord)) : HoverSelection :=
  evs.foldl (fun s e => fire (marker e.2) e.1 s) hoveredCity

end MapDisplay

/-! ## Vocabulary of the properties -/

/-- The integer `n` as a JavaScript number. -/
def JsNum.ofInt (n : Int) : JsNum := ⟨n, 0⟩

/-- A two-way choice `x` follows the danger threshold: it is the `elevated`
variant exactly when the score is above 70 and the `normal` variant exactly
when it is not. -/
def SelectsByThreshold (x elevated normal : String) (score : Int) : Prop :=
  (x = elevated ↔ 70 < score) ∧ (x = normal ↔ score ≤ 70)

/-- The selection a sequence of events ends with, read off its last event. -/
def lastEventSelection (evs : List (PointerEvent × CityRecord)) : HoverSelection :=
  match evs.getLast? with
  | none => none
  | some (PointerEvent.mouseout, _) => none
  | some (PointerEvent.mouseover, c) => some c

/-- Record 1 of `cities` in `App.jsx`. -/
def App.tunis : CityRecord :=
  { id := 1, name := "Tunis", lat := 36.8, lng := 10.1, danger := some 85 }

/-- Record 2 of `cities` in `App.jsx`. -/
def App.sousse : CityRecord :=
  { id := 2, name := "Sousse", lat := 35.8, lng := 10.6, danger := some 35 }

/-- Record 4 of `cities` in `App.jsx`. -/
def App.tataouine : CityRecord :=
  { id := 4, name := "Tataouine", lat := 32.9, lng := 10.4, danger := some 95 }

/-- Record 1 of `tunisiaRegions`. -/
def regionTunis : CityRecord :=
  { id := 1, name := "Tunis", lat := 36.8065, lng := 10.1815, dangerScore := some 88,
    risk := some "High Flood Risk", temp := some 25 }

/-- Record 2 of `tunisiaRegions`. -/
def regionSousse : CityRecord :=
  { id := 2, name := "Sousse", lat := 35.8256, lng := 10.6369, dangerScore := some 45,
    risk := some "Moderate Wind", temp := some 28 }

/-- Record 3 of `tunisiaRegions`. -/
def regionTozeur : CityRecord :=
  { id := 3, name := "Tozeur", lat := 33.9197, lng := 8.1335, dangerScore := some 92,
    risk := some "Extreme Heatwave", temp := some 42 }

/-! ## Auxiliary facts -/

theorem jsGt_ofInt (score : Int) : jsGt (some (JsNum.ofInt score)) 70 = decide (70 < score) := by
  show decide ((70 : Int) * (10 : Int) ^ 0 < score * (10 : Int) ^ 0) = decide (70 < score)
  simp

theorem selects_ite (score : Int) (e n : String) (hne : e ≠ n) :
    SelectsByThreshold (if decide (70 < score) = true then e else n) e n score := by
  unfold SelectsByThreshold
  by_cases h : 70 < score
  · have h2 : ¬ score ≤ 70 := by omega
    simp [h, h2, hne]
  · have h2 : score ≤ 70 := by omega
    simp [h, h2, hne.symm]

theorem selects_append_ite (score : Int) (pre e n : String) (hne : pre ++ e ≠ pre ++ n) :
    SelectsByThreshold (pre ++ if decide (70 < score) = true then e else n)
      (pre ++ e) (pre ++ n) score := by
  unfold SelectsByThreshold
  by_cases h : 70 < score
  · have h2 : ¬ score ≤ 70 := by omega
    simp [h, h2, hne]
  · have h2 : score ≤ 70 := by omega
    simp [h, h2, hne.symm]

theorem run_eq_last_aux (mk : CityRecord → CircleMarker) (init : HoverSelection)
    (hinit : init = none)
    (hover : ∀ c, (mk c).eventHandlers.mouseover.setState = some c)
    (hout : ∀ c, (mk c).eventHandlers.mouseout.setState = none)
    (evs : List (PointerEvent × CityRecord)) :
    evs.foldl (fun s e => fire (mk e.2) e.1 s) init = lastEventSelection evs := by
  rcases List.eq_nil_or_concat evs with h | ⟨pre, e, h⟩
  · subst h
    simp [lastEventSelection, hinit]
  · subst h
    obtain ⟨ev, c⟩ := e
    cases ev <;>
      simp [lastEventSelection, List.foldl_append, fire, setState, hover, hout]

theorem last_in_dataset (ds : List CityRecord) (evs : List (PointerEvent × CityRecord))
    (h : ∀ e ∈ evs, e.2 ∈ ds) :
    lastEventSelection evs = none ∨ ∃ c ∈ ds, lastEventSelection evs = some c := by
  rcases List.eq_nil_or_concat evs with h0 | ⟨pre, e, h0⟩
  · subst h0
    left
    simp [lastEventSelection]
  · subst h0
    obtain ⟨ev, c⟩ := e
    have hc : c ∈ ds := h (ev, c) (by simp)
    cases ev
    · right
      exact ⟨c, hc, by simp [lastEventSelection]⟩
    · left
      simp [lastEventSelection]

/-! ## Marker classification -/

/-- C1. For every integer score (so for every score in [0,100]), each choice the
two screens derive from a danger score follows the one threshold 70: the side
list colour, the marker fill colour and the two detail card colours of
`App.jsx`, and the marker fill colour, marker stroke colour, badge class, status
label CRITICAL or STABLE and bar class of `MapDisplay.jsx` are the elevated
variant exactly when the score is above 70 and the normal variant exactly when it
is at most 70. All use sites therefore agree on the class of a score. -/
theorem threshold_uniform_across_use_sites (a m : CityRecord) (score : Int)
    (ha : a.danger = some (JsNum.ofInt score))
    (hm : m.dangerScore = some (JsNum.ofInt score)) :
    SelectsByThreshold (App.alertRow a).color "#ef4444" "#3b82f6" score ∧
    SelectsByThreshold (App.marker a).pathOptions.fillColor "#ef4444" "#3b82f6" score ∧
    (∃ card, App.detailCard (some a) = some card ∧
      SelectsByThreshold card.percentColor "#ef4444" "#3b82f6" score ∧
      SelectsByThreshold card.barColor "#ef4444" "#3b82f6" score) ∧
    SelectsByThreshold (MapDisplay.marker m).pathOptions.fillColor "#ef4444" "#3b82f6" score ∧
    SelectsByThreshold (MapDisplay.marker m).pathOptions.color "#f87171" "#60a5fa" score ∧
    (∃ card, MapDisplay.hoverCard (some m) = some card ∧
      SelectsByThreshold card.badgeClass
        "px-2 py-1 rounded text-xs font-bold bg-red-500/20 text-red-400"
        "px-2 py-1 rounded text-xs font-bold bg-emerald-500/20 text-emerald-400" score ∧
      SelectsByThreshold card.status "CRITICAL" "STABLE" score ∧
      SelectsByThreshold card.barClass "h-full bg-red-500" "h-full bg-blue-500" score) := by
  have ga : jsGt a.danger 70 = decide (70 < score) := by rw [ha]; exact jsGt_ofInt score
  have gm : jsGt m.dangerScore 70 = decide (70 < score) := by rw [hm]; exact jsGt_ofInt score
  refine ⟨?_, ?_, ⟨_, rfl, ?_, ?_⟩, ?_, ?_, ⟨_, rfl, ?_, ?_, ?_⟩⟩
  · simp only [App.alertRow, ga]
    exact selects_ite score _ _ (by decide)
  · simp only [App.marker, ga]
    exact selects_ite score _ _ (by decide)
  · simp only [ga]
    exact selects_ite score _ _ (by decide)
  · simp only [ga]
    exact selects_ite score _ _ (by decide)
  · simp only [MapDisplay.marker, gm]
    exact selects_ite score _ _ (by decide)
  · simp only [MapDisplay.marker, gm]
    exact selects_ite score _ _ (by decide)
  · simp only [gm]
    exact selects_append_ite score "px-2 py-1 rounded text-xs font-bold " _ _ (by decide)
  · simp only [gm]
    exact selects_ite score _ _ (by decide)
  · simp only [gm]
    exact selects_append_ite score "h-full " _ _ (by decide)

/-- C1, boundary: a record with score 70 gets the normal marker colour and the
label STABLE, a record with score 71 the elevated colour and the label CRITICAL. -/
theorem threshold_uniform_across_use_sites_witness :
    (App.marker { App.tunis with danger := some (JsNum.ofInt 70) }).pathOptions.fillColor
        = "#3b82f6" ∧
    (App.marker { App.tunis with danger := some (JsNum.ofInt 71) }).pathOptions.fillColor
        = "#ef4444" ∧
    (MapDisplay.marker { regionTunis with dangerScore := some (JsNum.ofInt 70) }).pathOptions.color
        = "#60a5fa" ∧
    (MapDisplay.marker { regionTunis with dangerScore := some (JsNum.ofInt 71) }).pathOptions.color
        = "#f87171" :=
  ⟨((threshold_uniform_across_use_sites
        { App.tunis with danger := some (JsNum.ofInt 70) }
        { regionTunis with dangerScore := some (JsNum.ofInt 70) } 70 rfl rfl).2.1).2.mpr
      (by decide),
   ((threshold_uniform_across_use_sites
        { App.tunis with danger := some (JsNum.ofInt 71) }
        { regionTunis with dangerScore := some (JsNum.ofInt 71) } 71 rfl rfl).2.1).1.mpr
      (by decide),
   ((threshold_uniform_across_use_sites
        { App.tunis with danger := some (JsNum.ofInt 70) }
        { regionTunis with dangerScore := some (JsNum.ofInt 70) } 70 rfl rfl).2.2.2.2.1).2.mpr
      (by decide),
   ((threshold_uniform_across_use_sites
        { App.tunis with danger := some (JsNum.ofInt 71) }
        { regionTunis with dangerScore := some (JsNum.ofInt 71) } 71 rfl rfl).2.2.2.2.1).1.mpr
      (by decide)⟩

/-! ## Hover selection -/

/-- C2, as the code behaves: after `mouseover(A)`, `mouseover(B)`, `mouseout(A)`
the selection is `null` on both screens, whatever `A`, `B` and the starting
selection are: `mouseout` calls the setter with `null` without looking at the
active record. -/
theorem stale_leave_clears_selection (A B : CityRecord) (s : HoverSelection) :
    App.onLeave A (App.onEnter B (App.onEnter A s)) = none ∧
    MapDisplay.onLeave A (MapDisplay.onEnter B (MapDisplay.onEnter A s)) = none :=
  ⟨rfl, rfl⟩

/-- C2, counterexample: with A = Tunis and B = Sousse, two distinct records of the
dataset, and no starting selection, the stale `mouseout(A)` leaves the selection
`null` and not B, in `App.jsx` and in `MapDisplay.jsx`. -/
theorem stale_leave_counterexample :
    App.tunis ∈ App.cities ∧ App.sousse ∈ App.cities ∧ App.tunis ≠ App.sousse ∧
    App.onLeave App.tunis (App.onEnter App.sousse (App.onEnter App.tunis App.active))
      ≠ some App.sousse ∧
    regionTunis ∈ tunisiaRegions ∧ regionSousse ∈ tunisiaRegions ∧ regionTunis ≠ regionSousse ∧
    MapDisplay.onLeave regionTunis
        (MapDisplay.onEnter regionSousse (MapDisplay.onEnter regionTunis MapDisplay.hoveredCity))
      ≠ some regionSousse := by
  decide

/-- C3. After `mouseover(A)` then `mouseout(A)` the selection is `null`, from any
starting selection, and with that selection neither screen renders its detail
panel. -/
theorem enter_then_leave_is_none (A : CityRecord) (s : HoverSelection) :
    App.onLeave A (App.onEnter A s) = none ∧
    App.detailCard (App.onLeave A (App.onEnter A s)) = none ∧
    MapDisplay.onLeave A (MapDisplay.onEnter A s) = none ∧
    MapDisplay.hoverCard (MapDisplay.onLeave A (MapDisplay.onEnter A s)) = none :=
  ⟨rfl, rfl, rfl, rfl⟩

/-- C4. After `mouseover` on the marker rendered from record A the selection is
exactly A, from any starting selection (none or any city). -/
theorem enter_selects_record (A : CityRecord) (s : HoverSelection) :
    App.onEnter A s = some A ∧ MapDisplay.onEnter A s = some A :=
  ⟨rfl, rfl⟩

/-- C5. Before any pointer event the selection of each screen is `null`
(`useState(null)`), the empty event sequence leaves it so, and the detail panel
is not rendered. -/
theorem initial_selection_is_none :
    App.active = none ∧ App.run [] = none ∧ App.detailCard App.active = none ∧
    MapDisplay.hoveredCity = none ∧ MapDisplay.run [] = none ∧
    MapDisplay.hoverCard MapDisplay.hoveredCity = none :=
  ⟨rfl, rfl, rfl, rfl, rfl, rfl⟩

/-- C6. `mouseover(A)` is idempotent: applying it twice in a row gives the same
selection as applying it once, on both screens. -/
theorem enter_idempotent (A : CityRecord) (s : HoverSelection) :
    App.onEnter A (App.onEnter A s) = App.onEnter A s ∧
    MapDisplay.onEnter A (MapDisplay.onEnter A s) = MapDisplay.onEnter A s :=
  ⟨rfl, rfl⟩

/-! ## Rendering -/

/-- C7. Rendering `MapDisplay.jsx` over `tunisiaRegions` does not produce four
markers: the module never binds `CircleMarker` (it imports `Marker`), so the
first element of the list throws a `ReferenceError`. `App.jsx`, which imports
`CircleMarker`, renders exactly one marker per record of `cities`, in order,
centred at the record and filled by the threshold. The props `MapDisplay.jsx`
writes for each record of `tunisiaRegions` are the ones claimed (Tunis and Tozeur
elevated, Sousse and Bizerte normal), but no marker is built from them. -/
theorem mapDisplay_markers_throw :
    "CircleMarker" ∉ MapDisplay.moduleScope ∧
    MapDisplay.markers = Except.error (JsError.referenceError "CircleMarker") ∧
    "CircleMarker" ∈ App.moduleScope ∧
    App.markers = Except.ok (App.cities.map App.marker) ∧
    (App.cities.map App.marker).length = 4 ∧
    (App.cities.map App.marker).map (fun m => m.center)
      = App.cities.map (fun c => (c.lat, c.lng)) ∧
    (App.cities.map App.marker).map (fun m => m.pathOptions.fillColor)
      = ["#ef4444", "#3b82f6", "#3b82f6", "#ef4444"] ∧
    (tunisiaRegions.map MapDisplay.marker).map (fun m => m.center)
      = tunisiaRegions.map (fun c => (c.lat, c.lng)) ∧
    (tunisiaRegions.map MapDisplay.marker).map (fun m => m.pathOptions.fillColor)
      = ["#ef4444", "#3b82f6", "#ef4444", "#3b82f6"] :=
  ⟨by decide, rfl, by decide, rfl, rfl, rfl, by decide, rfl, by decide⟩

/-- C8. For every record of the dataset, when it is the hover selection the
detail panel is rendered and the width of its bar is the decimal numeral of the
record's danger score followed by the percent sign, inside a track of full
width; the score is an integer from 0 to 100. This holds for `MapDisplay.jsx`
over `tunisiaRegions` and for `App.jsx` over `cities`. -/
theorem bar_width_is_score_percent (m a : CityRecord)
    (hm : m ∈ tunisiaRegions) (ha : a ∈ App.cities) :
    (∃ n : Nat, n ≤ 100 ∧ m.dangerScore = some (JsNum.ofInt n) ∧
      ∃ card, MapDisplay.hoverCard (some m) = some card ∧
        card.barWidth = toString n ++ "%" ∧
        card.trackClass = "w-full bg-slate-700 h-1.5 rounded-full overflow-hidden") ∧
    (∃ n : Nat, n ≤ 100 ∧ a.danger = some (JsNum.ofInt n) ∧
      ∃ card, App.detailCard (some a) = some card ∧
        card.barWidth = toString n ++ "%" ∧ card.trackWidth = "100%") := by
  constructor
  · simp only [tunisiaRegions, List.mem_cons, List.mem_singleton, List.not_mem_nil, or_false] at hm
    rcases hm with rfl | rfl | rfl | rfl
    · exact ⟨88, by decide, rfl, _, rfl, by decide, rfl⟩
    · exact ⟨45, by decide, rfl, _, rfl, by decide, rfl⟩
    · exact ⟨92, by decide, rfl, _, rfl, by decide, rfl⟩
    · exact ⟨15, by decide, rfl, _, rfl, by decide, rfl⟩
  · simp only [App.cities, List.mem_cons, List.mem_singleton, List.not_mem_nil, or_false] at ha
    rcases ha with rfl | rfl | rfl | rfl
    · exact ⟨85, by decide, rfl, _, rfl, by decide, rfl⟩
    · exact ⟨35, by decide, rfl, _, rfl, by decide, rfl⟩
    · exact ⟨65, by decide, rfl, _, rfl, by decide, rfl⟩
    · exact ⟨95, by decide, rfl, _, rfl, by decide, rfl⟩

/-- C8, at Tozeur (score 92) and Tataouine (score 95): both are records of
their dataset, the statement holds for them, and the bar widths are the strings
92% and 95%. -/
theorem bar_width_is_score_percent_witness :
    regionTozeur ∈ tunisiaRegions ∧ App.tataouine ∈ App.cities ∧
    ((∃ n : Nat, n ≤ 100 ∧ regionTozeur.dangerScore = some (JsNum.ofInt n) ∧
      ∃ card, MapDisplay.hoverCard (some regionTozeur) = some card ∧
        card.barWidth = toString n ++ "%" ∧
        card.trackClass = "w-full bg-slate-700 h-1.5 rounded-full overflow-hidden") ∧
    (∃ n : Nat, n ≤ 100 ∧ App.tataouine.danger = some (JsNum.ofInt n) ∧
      ∃ card, App.detailCard (some App.tataouine) = some card ∧
        card.barWidth = toString n ++ "%" ∧ card.trackWidth = "100%")) ∧
    (MapDisplay.hoverCard (some regionTozeur)).map (fun card => card.barWidth) = some "92%" ∧
    (App.detailCard (some App.tataouine)).map (fun card => card.barWidth) = some "95%" :=
  ⟨by decide, by decide,
   bar_width_is_score_percent regionTozeur App.tataouine (by decide) (by decide),
   by decide, by decide⟩

/-! ## Data model -/

/-- C9, as the literals are written: within each dataset the `id` values are
integers and pairwise distinct; every record of `tunisiaRegions` carries a
`dangerScore` that is an integer from 0 to 100; every record of `cities` in
`App.jsx` carries no `dangerScore` key and keeps its score, an integer from 0 to
100, under the key `danger`. -/
theorem dataset_ids_and_scores :
    (tunisiaRegions.map (fun c => c.id)).Nodup ∧
    (App.cities.map (fun c => c.id)).Nodup ∧
    (∀ c ∈ tunisiaRegions, c.id.isInteger = true ∧
      ∃ n : Int, 0 ≤ n ∧ n ≤ 100 ∧ c.dangerScore = some (JsNum.ofInt n)) ∧
    (∀ c ∈ App.cities, c.id.isInteger = true ∧ c.dangerScore = none ∧
      ∃ n : Int, 0 ≤ n ∧ n ≤ 100 ∧ c.danger = some (JsNum.ofInt n)) := by
  refine ⟨by decide, by decide, ?_, ?_⟩
  · intro c hc
    simp only [tunisiaRegions, List.mem_cons, List.mem_singleton, List.not_mem_nil, or_false] at hc
    rcases hc with rfl | rfl | rfl | rfl
    · exact ⟨by decide, 88, by decide, by decide, rfl⟩
    · exact ⟨by decide, 45, by decide, by decide, rfl⟩
    · exact ⟨by decide, 92, by decide, by decide, rfl⟩
    · exact ⟨by decide, 15, by decide, by decide, rfl⟩
  · intro c hc
    simp only [App.cities, List.mem_cons, List.mem_singleton, List.not_mem_nil, or_false] at hc
    rcases hc with rfl | rfl | rfl | rfl
    · exact ⟨by decide, rfl, 85, by decide, by decide, rfl⟩
    · exact ⟨by decide, rfl, 35, by decide, by decide, rfl⟩
    · exact ⟨by decide, rfl, 65, by decide, by decide, rfl⟩
    · exact ⟨by decide, rfl, 95, by decide, by decide, rfl⟩

/-- C9, counterexample: Tunis, record 1 of `cities` in `App.jsx`, has no
`dangerScore` key; its score 85 is under `danger`. -/
theorem app_city_without_dangerScore :
    App.tunis ∈ App.cities ∧ App.tunis.dangerScore = none ∧
    App.tunis.danger = some (JsNum.ofInt 85) := by
  decide

/-! ## Event sequences -/

/-- C10. Starting from the initial state, the selection after any finite sequence
of `mouseover` and `mouseout` events on markers of the dataset is read off the
last event alone: `null` for the empty sequence and after a `mouseout` of any
city, the city C after `mouseover(C)`. So the selection is always `null` or a
record of the dataset. This holds for `App.jsx` over `cities` and for
`MapDisplay.jsx` over `tunisiaRegions`. -/
theorem selection_determined_by_last_event
    (evsA evsM : List (PointerEvent × CityRecord))
    (hA : ∀ e ∈ evsA, e.2 ∈ App.cities) (hM : ∀ e ∈ evsM, e.2 ∈ tunisiaRegions) :
    App.run evsA = lastEventSelection evsA ∧
    (App.run evsA = none ∨ ∃ c ∈ App.cities, App.run evsA = some c) ∧
    MapDisplay.run evsM = lastEventSelection evsM ∧
    (MapDisplay.run evsM = none ∨ ∃ c ∈ tunisiaRegions, MapDisplay.run evsM = some c) := by
  have eA : App.run evsA = lastEventSelection evsA :=
    run_eq_last_aux App.marker App.active rfl (fun _ => rfl) (fun _ => rfl) evsA
  have eM : MapDisplay.run evsM = lastEventSelection evsM :=
    run_eq_last_aux MapDisplay.marker MapDisplay.hoveredCity rfl (fun _ => rfl) (fun _ => rfl) evsM
  refine ⟨eA, ?_, eM, ?_⟩
  · rw [eA]
    exact last_in_dataset App.cities evsA hA
  · rw [eM]
    exact last_in_dataset tunisiaRegions evsM hM

/-- C10, at a concrete sequence: entering Tunis, entering Sousse and leaving
Tunis ends with no selection in `App.jsx`; leaving Tunis and then entering Tozeur
ends with Tozeur selected in `MapDisplay.jsx`. -/
theorem selection_determined_by_last_event_witness :
    App.run [(PointerEvent.mouseover, App.tunis), (PointerEvent.mouseover, App.sousse),
      (PointerEvent.mouseout, App.tunis)] = none ∧
    MapDisplay.run [(PointerEvent.mouseout, regionTunis), (PointerEvent.mouseover, regionTozeur)]
      = some regionTozeur :=
  have h := selection_determined_by_last_event
    [(PointerEvent.mouseover, App.tunis), (PointerEvent.mouseover, App.sousse),
      (PointerEvent.mouseout, App.tunis)]
    [(PointerEvent.mouseout, regionTunis), (PointerEvent.mouseover, regionTozeur)]
    (by decide) (by decide)
  ⟨h.1, h.2.2.1⟩

end WeatherGuard
